import Mathlib

/-!
Shallow embedding of the `blogicum` blog application core: the data model
(`blog/models.py`), the queryset builder `get_posts`, the ownership mixin
(`blog/mixins.py`) and the request handlers (`blog/views.py`).

Conventions of the embedding:
* Database rows are Lean structures; a table is a `List` of rows.
* `timezone.now()` is passed in explicitly as a `Timestamp` argument.
* Foreign keys that the code reads through `select_related` (`post.category`)
  are embedded as an `Option` of the referenced row; plain id references
  (`Comment.post_id`, `Post.author`) stay numeric.
* A view handler is a function from the store, the viewer and the route
  arguments to an `HttpResponse` (paired with the updated store when the
  handler mutates).
-/

namespace Blogicum

/-- Timestamps are modelled as a day number plus a second-of-day, so that
both the full-timestamp comparison (`post.pub_date >= timezone.now()` in
`PostDetailView.get_object`) and the date-only comparison
(`pub_date__date__lte` in `get_posts`) are expressible. -/
structure Timestamp where
  day : Int
  sec : Nat
deriving DecidableEq, Repr

/-- Strict full-timestamp comparison. -/
def Timestamp.lt (a b : Timestamp) : Prop :=
  a.day < b.day ∨ (a.day = b.day ∧ a.sec < b.sec)

/-- Non-strict full-timestamp comparison. -/
def Timestamp.le (a b : Timestamp) : Prop :=
  a.day < b.day ∨ (a.day = b.day ∧ a.sec ≤ b.sec)

/-- Date-granularity comparison: the meaning of Django's
`pub_date__date__lte=value` lookup, which compares only the date part. -/
def Timestamp.dateLe (a b : Timestamp) : Prop :=
  a.day ≤ b.day

instance (a b : Timestamp) : Decidable (Timestamp.lt a b) :=
  inferInstanceAs (Decidable (_ ∨ _))

instance (a b : Timestamp) : Decidable (Timestamp.le a b) :=
  inferInstanceAs (Decidable (_ ∨ _))

instance (a b : Timestamp) : Decidable (Timestamp.dateLe a b) :=
  inferInstanceAs (Decidable (_ ≤ _))

/-- Lexicographic order on code-point lists: the collation used to model the
database `ORDER BY title` comparison on string columns. -/
def lexLeb : List Char → List Char → Bool
  | [], _ => true
  | _ :: _, [] => false
  | a :: as, b :: bs =>
    if a.toNat < b.toNat then true
    else if b.toNat < a.toNat then false
    else lexLeb as bs

/-- String comparison used by the `title` ordering key. -/
def strLe (a b : String) : Prop := lexLeb a.data b.data = true

instance (a b : String) : Decidable (strLe a b) :=
  inferInstanceAs (Decidable (_ = true))

/-- External identity entity (`django.contrib.auth` User). Only the fields
this core reads are modelled: the primary key and the username used in
profile URLs. -/
structure User where
  id : Nat
  username : String
deriving DecidableEq, Repr

/-- Row of `blog.models.Location` (`TimeStampedPublishedModel` plus `name`).
The `is_published` / `created_at` fields come from the abstract base model
in `core/models.py`; modelled from the spec, which describes the shared
"published + timestamped" trait. -/
structure Location where
  id : Nat
  name : String
  is_published : Bool
  created_at : Timestamp
deriving DecidableEq, Repr

/-- Row of `blog.models.Category`. -/
structure Category where
  id : Nat
  title : String
  description : String
  slug : String
  is_published : Bool
  created_at : Timestamp
deriving DecidableEq, Repr

/-- Row of `blog.models.Post`. `author` holds the author's user id
(`on_delete=CASCADE`); `location` and `category` are nullable references
(`on_delete=SET_NULL`), embedded as the referenced row itself because every
read in the views goes through `select_related`. -/
structure Post where
  id : Nat
  title : String
  text : String
  pub_date : Timestamp
  author : Nat
  location : Option Location
  category : Option Category
  image : String
  is_published : Bool
  created_at : Timestamp
deriving DecidableEq, Repr

/-- Row of `blog.models.Comment`. `post_id` references the post
(`on_delete=CASCADE`), `author` the user (`on_delete=CASCADE`). -/
structure Comment where
  id : Nat
  text : String
  post_id : Nat
  author : Nat
  created_at : Timestamp
deriving DecidableEq, Repr

/-- Join semantics of the queryset filter `category__is_published=True`: a
row whose `category` foreign key is NULL never matches the joined condition. -/
def catPublished (p : Post) : Bool :=
  match p.category with
  | some c => c.is_published
  | none => false

/-- Filter applied by `get_posts` when `apply_general_filter` is set:
`category__is_published=True, is_published=True,
pub_date__date__lte=timezone.now()`. The last conjunct compares at date
granularity, because the `__date` lookup truncates both sides to dates. -/
def generalFilter (now : Timestamp) (p : Post) : Bool :=
  catPublished p && p.is_published && decide (Timestamp.dateLe p.pub_date now)

/-- Ordering key of `order_by('-pub_date', 'title')`: publication timestamp
descending, title ascending as tie-break. -/
def postLe (a b : Post) : Prop :=
  Timestamp.lt b.pub_date a.pub_date ∨ (b.pub_date = a.pub_date ∧ strLe a.title b.title)

instance (a b : Post) : Decidable (postLe a b) :=
  inferInstanceAs (Decidable (_ ∨ _))

/-- Number of comments attached to a post: the `Count('comments')`
annotation of `get_posts`. -/
def commentCount (comments : List Comment) (p : Post) : Nat :=
  (comments.filter (fun c => c.post_id == p.id)).length

/-- Embedding of `get_posts(apply_general_filter, apply_comments_count)`
from `blog/views.py`: optionally filter by publication status, and when
comment counting is requested also apply `order_by('-pub_date', 'title')`.
The `ORDER BY` of the database is modelled by a sort with respect to
`postLe`. -/
def get_posts (allPosts : List Post) (now : Timestamp)
    (apply_general_filter apply_comments_count : Bool) : List Post :=
  let posts := allPosts
  let posts := if apply_general_filter then posts.filter (generalFilter now) else posts
  if apply_comments_count then List.insertionSort postLe posts else posts

/-- Primary-key lookup used by the detail and mutation views
(`pk_url_kwarg = 'post_id'`). -/
def findPost (posts : List Post) (post_id : Nat) : Option Post :=
  posts.find? (fun p => p.id == post_id)

/-- Lookup of `get_user(username)` (`get_object_or_404(User, username=...)`). -/
def findUser (users : List User) (username : String) : Option User :=
  users.find? (fun u => u.username == username)

/-- Lookup of `get_published_category(category_slug)`
(`get_object_or_404(Category, slug=..., is_published=True)`). -/
def findPublishedCategory (cats : List Category) (slug : String) : Option Category :=
  cats.find? (fun c => c.slug == slug && c.is_published)

/-- Lookup of `CommentMixin.get_object`
(`get_object_or_404(Comment, pk=comment_id, post_id=post_id)`). -/
def findComment (comments : List Comment) (post_id comment_id : Nat) : Option Comment :=
  comments.find? (fun c => c.id == comment_id && c.post_id == post_id)

/-- Authorship test of `OnlyAuthorMixin.test_func` for posts
(`object.author == self.request.user`); an anonymous viewer is never the
author. -/
def isAuthor (viewer : Option User) (p : Post) : Bool :=
  match viewer with
  | some u => u.id == p.author
  | none => false

/-- Authorship test of `OnlyAuthorMixin.test_func` for comments. -/
def isCommentAuthor (viewer : Option User) (c : Comment) : Bool :=
  match viewer with
  | some u => u.id == c.author
  | none => false

/-- Outcome of a request handler, as far as the claims observe it. -/
inductive HttpResponse where
  | ok : HttpResponse
  | renderedPost (p : Post) : HttpResponse
  | notFound : HttpResponse
  | serverError : HttpResponse
  | redirectLogin : HttpResponse
  | redirectPostDetail (post_id : Nat) : HttpResponse
  | redirectProfile (username : String) : HttpResponse
deriving DecidableEq, Repr

/-- Queryset of `PostsListView` (the home page):
`get_posts(apply_general_filter=True, apply_comments_count=True)`. -/
def posts_list_queryset (posts : List Post) (now : Timestamp) : List Post :=
  get_posts posts now true true

/-- Queryset of `CategoryListView.get_queryset`: find the published
category by slug (404 when absent), then the generally filtered ordered
posts restricted to that category. -/
def category_list_queryset (cats : List Category) (posts : List Post)
    (slug : String) (now : Timestamp) : Option (List Post) :=
  match findPublishedCategory cats slug with
  | none => none
  | some category =>
    some ((get_posts posts now true true).filter
      (fun p => p.category == some category))

/-- Queryset of `ProfileDetailView.get_queryset`: 404 when the username is
unknown; the viewer's own profile skips the general filter, any other
profile applies it; both restrict to the profile owner's posts. -/
def profile_get_queryset (users : List User) (posts : List Post)
    (viewer : Option User) (username : String) (now : Timestamp) :
    Option (List Post) :=
  match findUser users username with
  | none => none
  | some user =>
    let qs :=
      if viewer = some user then
        get_posts posts now false true
      else
        get_posts posts now true true
    some (qs.filter (fun p => p.author == user.id))

/-- Embedding of `PostDetailView.get_object`: 404 when the pk is absent;
otherwise raise `Http404` when the viewer is not the author and the post is
unpublished, its category unpublished, or `post.pub_date >= timezone.now()`.
The disjunction short-circuits exactly as the Python `or` does, so the
category is dereferenced only when the post itself is published; a NULL
category then raises `AttributeError`, modelled as `serverError`. -/
def post_detail (posts : List Post) (viewer : Option User) (post_id : Nat)
    (now : Timestamp) : HttpResponse :=
  match findPost posts post_id with
  | none => .notFound
  | some post =>
    if isAuthor viewer post then .renderedPost post
    else if !post.is_published then .notFound
    else
      match post.category with
      | none => .serverError
      | some c =>
        if !c.is_published then .notFound
        else if Timestamp.le now post.pub_date then .notFound
        else .renderedPost post

/-- Form data of `PostForm` (`ModelForm` with `exclude = ('author',)`): all
model fields of `Post` except the author. The `is_published` flag belongs to
the abstract base model in `core/models.py`; modelled from the spec's
published flag. -/
structure PostFormData where
  title : String
  text : String
  pub_date : Timestamp
  location : Option Location
  category : Option Category
  image : String
  is_published : Bool
deriving DecidableEq, Repr

/-- Application of a valid `PostForm` to an existing post row: every form
field is written, pk / author / creation time are untouched. -/
def applyPostForm (p : Post) (d : PostFormData) : Post :=
  { p with
    title := d.title
    text := d.text
    pub_date := d.pub_date
    location := d.location
    category := d.category
    image := d.image
    is_published := d.is_published }

/-- Embedding of `PostCreateView` (`LoginRequiredMixin, CreateView`): an
anonymous request is redirected to login; otherwise the form is saved with
`form.instance.author = self.request.user` and the response redirects to the
viewer's profile (`get_success_url`). -/
def post_create (posts : List Post) (viewer : Option User) (d : PostFormData)
    (newId : Nat) (now : Timestamp) : HttpResponse × List Post :=
  match viewer with
  | none => (.redirectLogin, posts)
  | some u =>
    (.redirectProfile u.username,
     posts ++ [{ id := newId, title := d.title, text := d.text,
                 pub_date := d.pub_date, author := u.id,
                 location := d.location, category := d.category,
                 image := d.image, is_published := d.is_published,
                 created_at := now }])

/-- Embedding of `PostUpdateView` (`OnlyAuthorMixin, UpdateView`): the pk
lookup happens inside `test_func` via `get_object` (404 when absent); a
viewer failing the authorship test — including an anonymous one, since
`UserPassesTestMixin` runs the test before any login check — is redirected
by `handle_no_permission` to the post's detail page with no mutation; the
author's valid form is saved and `get_success_url` redirects to the same
detail page. -/
def post_update (posts : List Post) (viewer : Option User) (post_id : Nat)
    (d : PostFormData) : HttpResponse × List Post :=
  match findPost posts post_id with
  | none => (.notFound, posts)
  | some post =>
    if isAuthor viewer post then
      (.redirectPostDetail post_id,
       posts.map (fun q => if q.id == post_id then applyPostForm q d else q))
    else
      (.redirectPostDetail post_id, posts)

/-- Deletion policy of the `Post` table: deleting a post row cascades to
the comments referencing it (`Comment.post` has `on_delete=CASCADE`). -/
def delete_post_row (posts : List Post) (comments : List Comment)
    (post_id : Nat) : List Post × List Comment :=
  (posts.filter (fun p => !(p.id == post_id)),
   comments.filter (fun c => !(c.post_id == post_id)))

/-- Deletion policy of the `Category` table: deleting a category nulls the
`category` reference of the posts pointing at it (`on_delete=SET_NULL`);
the posts themselves survive unchanged otherwise. -/
def delete_category_row (posts : List Post) (category_id : Nat) : List Post :=
  posts.map (fun p =>
    match p.category with
    | some c => if c.id == category_id then { p with category := none } else p
    | none => p)

/-- Embedding of `PostDeleteView` (`OnlyAuthorMixin, DeleteView`): 404 when
the pk is absent; a non-author is redirected to the post's detail page with
nothing deleted; the author's deletion cascades to the post's comments and
redirects to the author's profile. -/
def post_delete (posts : List Post) (comments : List Comment)
    (viewer : Option User) (post_id : Nat) :
    HttpResponse × List Post × List Comment :=
  match findPost posts post_id with
  | none => (.notFound, posts, comments)
  | some post =>
    if isAuthor viewer post then
      match viewer with
      | some u =>
        (.redirectProfile u.username, delete_post_row posts comments post_id)
      | none => (.redirectPostDetail post_id, posts, comments)
    else
      (.redirectPostDetail post_id, posts, comments)

/-- Embedding of `CommentCreateView` (`LoginRequiredMixin, CreateView`): an
anonymous request is redirected to login; `form_valid` looks the post up
with `get_object_or_404(Post, id=post_id)` (404 when absent), then saves the
comment with `post` and `author` set, and `get_success_url` redirects to the
post's detail page. -/
def comment_create (posts : List Post) (comments : List Comment)
    (viewer : Option User) (post_id : Nat) (text : String) (newId : Nat)
    (now : Timestamp) : HttpResponse × List Comment :=
  match viewer with
  | none => (.redirectLogin, comments)
  | some u =>
    match findPost posts post_id with
    | none => (.notFound, comments)
    | some _ =>
      (.redirectPostDetail post_id,
       comments ++ [{ id := newId, text := text, post_id := post_id,
                      author := u.id, created_at := now }])

/-- Embedding of `CommentUpdateView` (`OnlyAuthorMixin, CommentMixin,
UpdateView`): the comment is looked up by pk and post id (404 when absent);
a non-author is redirected to the post's detail page with no mutation; the
author's edit writes the form's `text` field and redirects to the same
detail page. -/
def comment_update (comments : List Comment) (viewer : Option User)
    (post_id comment_id : Nat) (text : String) : HttpResponse × List Comment :=
  match findComment comments post_id comment_id with
  | none => (.notFound, comments)
  | some c =>
    if isCommentAuthor viewer c then
      (.redirectPostDetail post_id,
       comments.map (fun d => if d.id == comment_id && d.post_id == post_id
                              then { d with text := text } else d))
    else
      (.redirectPostDetail post_id, comments)

/-- Embedding of `CommentDeleteView` (`OnlyAuthorMixin, CommentMixin,
DeleteView`): like the update, but the author's request removes the comment
row. -/
def comment_delete (comments : List Comment) (viewer : Option User)
    (post_id comment_id : Nat) : HttpResponse × List Comment :=
  match findComment comments post_id comment_id with
  | none => (.notFound, comments)
  | some c =>
    if isCommentAuthor viewer c then
      (.redirectPostDetail post_id,
       comments.filter (fun d => !(d.id == comment_id && d.post_id == post_id)))
    else
      (.redirectPostDetail post_id, comments)

/-- Form data of `UserUpdateForm`; only the username is observed by this
core (it determines the profile redirect target). -/
structure UserFormData where
  username : String
deriving DecidableEq, Repr

/-- Embedding of `ProfileUpdateView` (`LoginRequiredMixin, UpdateView`): an
anonymous request is redirected to login; otherwise the viewer's own row is
updated and `get_success_url` redirects to the (updated) profile. -/
def profile_update (users : List User) (viewer : Option User)
    (d : UserFormData) : HttpResponse × List User :=
  match viewer with
  | none => (.redirectLogin, users)
  | some u =>
    (.redirectProfile d.username,
     users.map (fun v => if v.id == u.id then { v with username := d.username }
                         else v))

/-- Modelled from the spec: `POSTS_PER_PAGE` lives in `blogicum/settings.py`,
which is not part of the sources; the spec only says it is a fixed configured
constant, so a representative value is used. No claim depends on the value. -/
def POSTS_PER_PAGE : Nat := 10

/-- Page extraction of Django's paginator: page `n` (1-based) holds at most
`page_size` items. -/
def paginate (page_size page_number : Nat) (xs : List Post) : List Post :=
  (xs.drop ((page_number - 1) * page_size)).take page_size

/-- Items handed to the template as `page_obj` by `PostsListView`
(`paginate_by = POSTS_PER_PAGE`). -/
def home_page_obj (posts : List Post) (now : Timestamp) (page : Nat) :
    List Post :=
  paginate POSTS_PER_PAGE page (posts_list_queryset posts now)

/-- Items handed to the template as `page_obj` by `CategoryListView`. -/
def category_page_obj (cats : List Category) (posts : List Post)
    (slug : String) (now : Timestamp) (page : Nat) : Option (List Post) :=
  (category_list_queryset cats posts slug now).map (paginate POSTS_PER_PAGE page)

/-- Items handed to the template as `page_obj` by `ProfileDetailView`: its
`get_context_data` replaces the whole context with
`{'profile': ..., 'page_obj': self.get_queryset()}`, so despite
`paginate_by = POSTS_PER_PAGE` the template receives the full queryset. -/
def profile_page_obj (users : List User) (posts : List Post)
    (viewer : Option User) (username : String) (now : Timestamp) :
    Option (List Post) :=
  profile_get_queryset users posts viewer username now

/-- Predicate written from the spec's words, for comparison with the code:
a post is publicly visible iff `is_published == true`,
`category.is_published == true` and `pub_date <= now`, the timestamp
comparison at full granularity. -/
def specVisibleFullTs (p : Post) (now : Timestamp) : Prop :=
  p.is_published = true ∧ catPublished p = true ∧ Timestamp.le p.pub_date now

instance (p : Post) (now : Timestamp) : Decidable (specVisibleFullTs p now) :=
  inferInstanceAs (Decidable (_ ∧ _))

/-! Concrete fixtures used by counterexamples and witnesses. -/

/-- Published category fixture. -/
def catA : Category :=
  { id := 1, title := "General", description := "d", slug := "general",
    is_published := true, created_at := ⟨0, 0⟩ }

/-- Authenticated user fixture that is not the author of any fixture post
(every fixture post has author id 1). -/
def vNonAuthor : User := { id := 2, username := "viewer" }

/-- Author fixture: user id 1. -/
def uAuthor : User := { id := 1, username := "author" }

/-- Published post in a published category whose `pub_date` lies on the
same calendar day as the reference time `⟨5, 0⟩` but ten seconds after it. -/
def postLate : Post :=
  { id := 1, title := "T", text := "x", pub_date := ⟨5, 10⟩, author := 1,
    location := none, category := some catA, image := "",
    is_published := true, created_at := ⟨0, 0⟩ }

/-- Published post whose `pub_date` equals the reference time `⟨5, 100⟩`
exactly. -/
def postBoundary : Post :=
  { id := 1, title := "T", text := "x", pub_date := ⟨5, 100⟩, author := 1,
    location := none, category := some catA, image := "",
    is_published := true, created_at := ⟨0, 0⟩ }

/-- Published post strictly in the past of the reference time `⟨6, 0⟩`. -/
def postPast : Post :=
  { id := 1, title := "T", text := "x", pub_date := ⟨5, 0⟩, author := 1,
    location := none, category := some catA, image := "",
    is_published := true, created_at := ⟨0, 0⟩ }

/-- Unpublished, future-dated post with no category, authored by user 1. -/
def postDraft : Post :=
  { id := 1, title := "Draft", text := "x", pub_date := ⟨100, 0⟩, author := 1,
    location := none, category := none, image := "",
    is_published := false, created_at := ⟨0, 0⟩ }

/-- Published post with a NULL category, authored by user 1. -/
def postPubNoCat : Post :=
  { id := 1, title := "T", text := "x", pub_date := ⟨0, 0⟩, author := 1,
    location := none, category := none, image := "",
    is_published := true, created_at := ⟨0, 0⟩ }

/-- Ordering fixtures: titles B, A on day 19723 (2024-01-01) and title C on
day 19722 (2023-12-31), all published in `catA` and all past. -/
def pB : Post :=
  { id := 1, title := "B", text := "x", pub_date := ⟨19723, 0⟩, author := 1,
    location := none, category := some catA, image := "",
    is_published := true, created_at := ⟨0, 0⟩ }

/-- Ordering fixture A, same publication timestamp as `pB`. -/
def pA : Post :=
  { id := 2, title := "A", text := "x", pub_date := ⟨19723, 0⟩, author := 1,
    location := none, category := some catA, image := "",
    is_published := true, created_at := ⟨0, 0⟩ }

/-- Ordering fixture C, one day earlier. -/
def pC : Post :=
  { id := 3, title := "C", text := "x", pub_date := ⟨19722, 0⟩, author := 1,
    location := none, category := some catA, image := "",
    is_published := true, created_at := ⟨0, 0⟩ }

/-- Eleven posts by user 1, one more than `POSTS_PER_PAGE`. -/
def posts11 : List Post :=
  (List.range 11).map (fun i =>
    { id := i, title := "", text := "", pub_date := ⟨0, 0⟩, author := 1,
      location := none, category := none, image := "",
      is_published := true, created_at := ⟨0, 0⟩ })

/-- Post form fixture. -/
def formD : PostFormData :=
  { title := "edited", text := "edited", pub_date := ⟨0, 0⟩, location := none,
    category := some catA, image := "", is_published := true }

/-- Post with id 5 for the comment-creation scenario. -/
def post5 : Post :=
  { id := 5, title := "T", text := "x", pub_date := ⟨0, 0⟩, author := 1,
    location := none, category := some catA, image := "",
    is_published := true, created_at := ⟨0, 0⟩ }

/-- Comment on post 1, to be cascaded away. -/
def cGone : Comment :=
  { id := 1, text := "bye", post_id := 1, author := 2, created_at := ⟨0, 0⟩ }

/-- Comment on post 1 authored by user 1. -/
def cByAuthor : Comment :=
  { id := 1, text := "c", post_id := 1, author := 1, created_at := ⟨0, 0⟩ }

/-- Comment on post 2, surviving the deletion of post 1. -/
def cKeep : Comment :=
  { id := 2, text := "hi", post_id := 2, author := 2, created_at := ⟨0, 0⟩ }

/-! Order-theoretic facts about the `order_by('-pub_date', 'title')` key,
packaged as the instances `List.insertionSort` needs. -/

theorem lexLeb_total : ∀ a b : List Char, lexLeb a b = true ∨ lexLeb b a = true := by
  intro a
  induction a with
  | nil => intro b; left; rfl
  | cons x xs ih =>
    intro b
    cases b with
    | nil => right; rfl
    | cons y ys =>
      simp only [lexLeb]
      rcases Nat.lt_trichotomy x.toNat y.toNat with h | h | h
      · left; simp [h]
      · have h1 : ¬ x.toNat < y.toNat := by omega
        have h2 : ¬ y.toNat < x.toNat := by omega
        simpa [h1, h2] using ih ys
      · right; simp [h]

theorem lexLeb_trans : ∀ a b c : List Char,
    lexLeb a b = true → lexLeb b c = true → lexLeb a c = true := by
  intro a
  induction a with
  | nil => intro b c _ _; rfl
  | cons x xs ih =>
    intro b c hab hbc
    cases b with
    | nil => simp [lexLeb] at hab
    | cons y ys =>
      cases c with
      | nil => simp [lexLeb] at hbc
      | cons z zs =>
        simp only [lexLeb] at hab hbc ⊢
        by_cases hxy : x.toNat < y.toNat
        · by_cases hyz : y.toNat < z.toNat
          · have : x.toNat < z.toNat := by omega
            simp [this]
          · simp [hxy] at hab
            by_cases hzy : z.toNat < y.toNat
            · simp [hyz, hzy] at hbc
            · have hyz2 : y.toNat = z.toNat := by omega
              have : x.toNat < z.toNat := by omega
              simp [this]
        · by_cases hyx : y.toNat < x.toNat
          · simp [hxy, hyx] at hab
          · have hxy2 : x.toNat = y.toNat := by omega
            by_cases hyz : y.toNat < z.toNat
            · have : x.toNat < z.toNat := by omega
              simp [this]
            · by_cases hzy : z.toNat < y.toNat
              · simp [hyz, hzy] at hbc
              · have hxz : ¬ x.toNat < z.toNat := by omega
                have hzx : ¬ z.toNat < x.toNat := by omega
                simp only [if_neg hxy, if_neg hyx] at hab
                simp only [if_neg hyz, if_neg hzy] at hbc
                simp only [if_neg hxz, if_neg hzx]
                exact ih ys zs hab hbc

theorem strLe_total (a b : String) : strLe a b ∨ strLe b a :=
  lexLeb_total a.data b.data

theorem strLe_trans {a b c : String} (hab : strLe a b) (hbc : strLe b c) :
    strLe a c :=
  lexLeb_trans a.data b.data c.data hab hbc

theorem Timestamp.lt_trans {a b c : Timestamp}
    (hab : Timestamp.lt a b) (hbc : Timestamp.lt b c) : Timestamp.lt a c := by
  rcases hab with h | ⟨hd, hs⟩ <;> rcases hbc with h2 | ⟨hd2, hs2⟩
  · exact Or.inl (Int.lt_trans h h2)
  · exact Or.inl (hd2 ▸ h)
  · exact Or.inl (hd ▸ h2)
  · exact Or.inr ⟨hd.trans hd2, Nat.lt_trans hs hs2⟩

theorem Timestamp.eq_of_not_lt {a b : Timestamp}
    (hab : ¬ Timestamp.lt a b) (hba : ¬ Timestamp.lt b a) : a = b := by
  obtain ⟨a1, a2⟩ := a
  obtain ⟨b1, b2⟩ := b
  simp only [Timestamp.lt, not_or, not_and, not_lt] at hab hba
  obtain ⟨h1, h2⟩ := hab
  obtain ⟨h3, h4⟩ := hba
  have hd : a1 = b1 := le_antisymm h3 h1
  simp only [Timestamp.mk.injEq]
  exact ⟨hd, le_antisymm (h4 hd.symm) (h2 hd)⟩

theorem postLe_total : ∀ a b : Post, postLe a b ∨ postLe b a := by
  intro a b
  unfold postLe
  by_cases h : Timestamp.lt b.pub_date a.pub_date
  · exact Or.inl (Or.inl h)
  · by_cases h2 : Timestamp.lt a.pub_date b.pub_date
    · exact Or.inr (Or.inl h2)
    · have heq : a.pub_date = b.pub_date := Timestamp.eq_of_not_lt h2 h
      rcases strLe_total a.title b.title with ht | ht
      · exact Or.inl (Or.inr ⟨heq.symm, ht⟩)
      · exact Or.inr (Or.inr ⟨heq, ht⟩)

theorem postLe_trans :
    ∀ a b c : Post, postLe a b → postLe b c → postLe a c := by
  intro a b c hab hbc
  unfold postLe at hab hbc ⊢
  rcases hab with h | ⟨hd, hs⟩ <;> rcases hbc with h2 | ⟨hd2, hs2⟩
  · exact Or.inl (Timestamp.lt_trans h2 h)
  · exact Or.inl (hd2 ▸ h)
  · exact Or.inl (hd ▸ h2)
  · exact Or.inr ⟨hd2.trans hd, strLe_trans hs hs2⟩

/-- Sortedness of the ordered querysets produced by `get_posts` when
`apply_comments_count` triggers `order_by('-pub_date', 'title')`. -/
theorem sorted_get_posts (posts : List Post) (now : Timestamp)
    (g : Bool) : (get_posts posts now g true).Sorted postLe := by
  haveI : IsTotal Post postLe := ⟨postLe_total⟩
  haveI : IsTrans Post postLe := ⟨postLe_trans⟩
  cases g
  · exact List.sorted_insertionSort postLe posts
  · exact List.sorted_insertionSort postLe (posts.filter (generalFilter now))

/-- Membership in the publicly filtered ordered queryset. -/
theorem mem_get_posts_filtered (posts : List Post) (now : Timestamp) (p : Post) :
    p ∈ get_posts posts now true true ↔
      p ∈ posts ∧ generalFilter now p = true := by
  show p ∈ List.insertionSort postLe (posts.filter (generalFilter now)) ↔ _
  rw [List.mem_insertionSort, List.mem_filter]

/-- Membership in the unfiltered ordered queryset. -/
theorem mem_get_posts_unfiltered (posts : List Post) (now : Timestamp) (p : Post) :
    p ∈ get_posts posts now false true ↔ p ∈ posts := by
  show p ∈ List.insertionSort postLe posts ↔ p ∈ posts
  exact List.mem_insertionSort postLe

/-- C1 counterexample: `postLate` is published, its category is published,
and its `pub_date` (day 5, second 10) is strictly after the current time
(day 5, second 0), yet it appears on the home page, because the queryset
filter `pub_date__date__lte` compares dates only. This refutes the claim
that membership is equivalent to the full-timestamp predicate. -/
theorem C1_counterexample :
    ¬ ((postLate ∈ posts_list_queryset [postLate] ⟨5, 0⟩) ↔
        specVisibleFullTs postLate ⟨5, 0⟩) := by decide

/-- C1 (amended): a post appears in the home-page queryset iff it is stored,
`is_published` is true, its category exists and is published, and the *date*
of `pub_date` is on or before the date of now — the `pub_date` comparison is
at date granularity, not full-timestamp granularity. -/
theorem C1_home_membership (posts : List Post) (now : Timestamp) (p : Post) :
    p ∈ posts_list_queryset posts now ↔
      p ∈ posts ∧ p.is_published = true ∧ catPublished p = true ∧
        Timestamp.dateLe p.pub_date now := by
  rw [posts_list_queryset, mem_get_posts_filtered]
  unfold generalFilter
  simp only [Bool.and_eq_true, decide_eq_true_eq]
  tauto

/-- C5: every list display orders by publication date descending with title
ascending as tie-break — the home queryset, the category queryset and the
profile queryset are all sorted with respect to `postLe`, and on the spec's
concrete fixture (pub_dates 2024-01-01, 2024-01-01, 2023-12-31 with titles
B, A, C) the home list is [A, B, C]. -/
theorem C5_list_ordering :
    (∀ posts now, (posts_list_queryset posts now).Sorted postLe)
    ∧ (∀ cats posts slug now,
        ((category_list_queryset cats posts slug now).getD []).Sorted postLe)
    ∧ (∀ users posts viewer username now,
        ((profile_get_queryset users posts viewer username now).getD
          []).Sorted postLe)
    ∧ posts_list_queryset [pB, pA, pC] ⟨19724, 0⟩ = [pA, pB, pC] := by
  refine ⟨?_, ?_, ?_, by decide⟩
  · intro posts now
    exact sorted_get_posts posts now true
  · intro cats posts slug now
    unfold category_list_queryset
    cases h : findPublishedCategory cats slug with
    | none => simp
    | some category =>
      simp only [Option.getD_some]
      exact (sorted_get_posts posts now true).filter _
  · intro users posts viewer username now
    unfold profile_get_queryset
    cases h : findUser users username with
    | none => simp
    | some user =>
      simp only [Option.getD_some]
      by_cases hv : viewer = some user
      · simp only [hv, if_pos rfl]
        exact (sorted_get_posts posts now false).filter _
      · rw [if_neg hv]
        exact (sorted_get_posts posts now true).filter _

/-- C2 counterexample: `postBoundary` exists, the viewer is not its author,
and the post satisfies the spec's visibility predicate (published, category
published, `pub_date <= now` — here `pub_date` equals now exactly), yet the
detail view answers NotFound, because `PostDetailView.get_object` hides the
post already when `post.pub_date >= timezone.now()`. The claimed
equivalence "NotFound iff absent or non-author and predicate fails" is
therefore false at this input. -/
theorem C2_counterexample :
    ¬ (post_detail [postBoundary] (some vNonAuthor) 1 ⟨5, 100⟩ =
          .notFound ↔
        (findPost [postBoundary] 1 = none ∨
         (isAuthor (some vNonAuthor) postBoundary = false ∧
          ¬ specVisibleFullTs postBoundary ⟨5, 100⟩))) := by decide

/-- C2 (amended): for a stored post with a non-NULL category, the detail
view answers NotFound exactly when the viewer is not the author and the post
is unpublished, or its category is unpublished, or `pub_date >= now`
(strictly future *or equal*); when it does not answer NotFound it renders
the post. An absent post id always answers NotFound. -/
theorem C2_detail_not_found (posts : List Post) (viewer : Option User)
    (pid : Nat) (now : Timestamp) :
    (findPost posts pid = none → post_detail posts viewer pid now = .notFound)
    ∧ (∀ p, findPost posts pid = some p → ∀ c, p.category = some c →
        ((post_detail posts viewer pid now = .notFound ↔
           (isAuthor viewer p = false ∧
            (p.is_published = false ∨ c.is_published = false ∨
             Timestamp.le now p.pub_date)))
         ∧ (post_detail posts viewer pid now ≠ .notFound →
             post_detail posts viewer pid now = .renderedPost p))) := by
  constructor
  · intro h
    unfold post_detail
    rw [h]
  · intro p hp c hc
    unfold post_detail
    simp only [hp, hc]
    by_cases ha : isAuthor viewer p = true
    · simp [ha]
    · have ha2 : isAuthor viewer p = false := by
        cases h : isAuthor viewer p
        · rfl
        · exact absurd h ha
      cases hpub : p.is_published
      · simp [ha2, hpub]
      · cases hcpub : c.is_published
        · simp [ha2, hpub, hcpub]
        · by_cases hle : Timestamp.le now p.pub_date
          · simp [ha2, hpub, hcpub, hle]
          · simp [ha2, hpub, hcpub, hle]

/-- C2 witness: a non-author viewing the strictly past published
`postPast` at time `⟨6, 0⟩` gets the rendered detail, and a missing id
gets NotFound, instantiating `C2_detail_not_found`. -/
theorem C2_detail_not_found_witness :
    post_detail [postPast] (some vNonAuthor) 1 ⟨6, 0⟩ =
      .renderedPost postPast ∧
    post_detail [postPast] (some vNonAuthor) 7 ⟨6, 0⟩ = .notFound :=
  ⟨((C2_detail_not_found [postPast] (some vNonAuthor) 1 ⟨6, 0⟩).2 postPast
      (by decide) catA (by decide)).2 (by decide),
   (C2_detail_not_found [postPast] (some vNonAuthor) 7 ⟨6, 0⟩).1 (by decide)⟩

/-- C3: the author always sees their own post — the detail view renders a
stored post for its author with no visibility check at all, and a user's own
profile queryset contains exactly the user's stored posts, with no
visibility predicate applied. -/
theorem C3_author_always_visible (posts : List Post) (users : List User)
    (viewer u : User) (pid : Nat) (username : String) (now : Timestamp) :
    (∀ p, findPost posts pid = some p → isAuthor (some viewer) p = true →
        post_detail posts (some viewer) pid now = .renderedPost p)
    ∧ (findUser users username = some u →
        ∀ p, p ∈ (profile_get_queryset users posts (some u) username
                    now).getD [] ↔
          p ∈ posts ∧ p.author = u.id) := by
  constructor
  · intro p hp hauth
    unfold post_detail
    simp only [hp, hauth, if_pos]
  · intro hu p
    unfold profile_get_queryset
    simp only [hu, if_pos rfl, Option.getD_some, if_true, eq_self_iff_true]
    rw [List.mem_filter, mem_get_posts_unfiltered]
    simp

/-- C3 witness: user 1 sees their own unpublished, future-dated,
category-less `postDraft` both on the detail page and in their own profile
listing, instantiating `C3_author_always_visible`. -/
theorem C3_author_always_visible_witness :
    post_detail [postDraft] (some uAuthor) 1 ⟨0, 0⟩ =
      .renderedPost postDraft ∧
    postDraft ∈ (profile_get_queryset [uAuthor] [postDraft] (some uAuthor)
        "author" ⟨0, 0⟩).getD [] :=
  ⟨(C3_author_always_visible [postDraft] [uAuthor] uAuthor uAuthor 1
      "author" ⟨0, 0⟩).1 postDraft (by decide) (by decide),
   ((C3_author_always_visible [postDraft] [uAuthor] uAuthor uAuthor 1
      "author" ⟨0, 0⟩).2 (by decide) postDraft).mpr (by decide)⟩

/-- C4: a denied update or delete on a post or comment — an authenticated
actor who is not the author — answers a redirect to the relevant post's
detail page (never a hard 403: no such response exists in any branch), and
leaves the stored tables exactly as they were. -/
theorem C4_denied_mutation_unchanged (posts : List Post)
    (comments : List Comment) (u : User) (pid cid : Nat) (d : PostFormData)
    (txt : String) :
    (∀ p, findPost posts pid = some p → u.id ≠ p.author →
        post_update posts (some u) pid d = (.redirectPostDetail pid, posts))
    ∧ (∀ p, findPost posts pid = some p → u.id ≠ p.author →
        post_delete posts comments (some u) pid =
          (.redirectPostDetail pid, posts, comments))
    ∧ (∀ c, findComment comments pid cid = some c → u.id ≠ c.author →
        comment_update comments (some u) pid cid txt =
          (.redirectPostDetail pid, comments))
    ∧ (∀ c, findComment comments pid cid = some c → u.id ≠ c.author →
        comment_delete comments (some u) pid cid =
          (.redirectPostDetail pid, comments)) := by
  have hisA : ∀ p : Post, u.id ≠ p.author → isAuthor (some u) p = false := by
    intro p hne
    unfold isAuthor
    simpa using hne
  have hisC : ∀ c : Comment, u.id ≠ c.author →
      isCommentAuthor (some u) c = false := by
    intro c hne
    unfold isCommentAuthor
    simpa using hne
  refine ⟨?_, ?_, ?_, ?_⟩
  · intro p hp hne
    unfold post_update
    simp [hp, hisA p hne]
  · intro p hp hne
    unfold post_delete
    simp [hp, hisA p hne]
  · intro c hc hne
    unfold comment_update
    simp [hc, hisC c hne]
  · intro c hc hne
    unfold comment_delete
    simp [hc, hisC c hne]

/-- C4 witness: user 2 (not the author of `postPast` or of `cGone`, both
authored by user 1) is redirected to the post detail page with the stores
untouched, for all four mutation handlers, instantiating
`C4_denied_mutation_unchanged`. -/
theorem C4_denied_mutation_unchanged_witness :
    post_update [postPast] (some vNonAuthor) 1 formD =
      (.redirectPostDetail 1, [postPast]) ∧
    post_delete [postPast] [cByAuthor] (some vNonAuthor) 1 =
      (.redirectPostDetail 1, [postPast], [cByAuthor]) ∧
    comment_update [cByAuthor] (some vNonAuthor) 1 1 "x" =
      (.redirectPostDetail 1, [cByAuthor]) ∧
    comment_delete [cByAuthor] (some vNonAuthor) 1 1 =
      (.redirectPostDetail 1, [cByAuthor]) :=
  ⟨(C4_denied_mutation_unchanged [postPast] [cByAuthor] vNonAuthor 1 1
      formD "x").1 postPast (by decide) (by decide),
   (C4_denied_mutation_unchanged [postPast] [cByAuthor] vNonAuthor 1 1
      formD "x").2.1 postPast (by decide) (by decide),
   (C4_denied_mutation_unchanged [postPast] [cByAuthor] vNonAuthor 1 1
      formD "x").2.2.1 cByAuthor (by decide) (by decide),
   (C4_denied_mutation_unchanged [postPast] [cByAuthor] vNonAuthor 1 1
      formD "x").2.2.2 cByAuthor (by decide) (by decide)⟩

/-- C6: the home and category pages always hand at most `POSTS_PER_PAGE`
posts to the template, but the profile page does not: its
`get_context_data` replaces `page_obj` with the full queryset, so a profile
with eleven stored posts hands all eleven to the template, exceeding the
configured page size. This is the failing input showing the code
contradicts its own `paginate_by = POSTS_PER_PAGE` declaration. -/
theorem C6_pagination :
    (∀ posts now page, (home_page_obj posts now page).length ≤ POSTS_PER_PAGE)
    ∧ (∀ cats posts slug now page,
        ((category_page_obj cats posts slug now page).getD []).length ≤
          POSTS_PER_PAGE)
    ∧ ((profile_page_obj [uAuthor] posts11 (some uAuthor) "author"
          ⟨0, 0⟩).getD []).length = 11
    ∧ ¬ (11 ≤ POSTS_PER_PAGE) := by
  have hpag : ∀ (n k : Nat) (xs : List Post),
      (paginate n k xs).length ≤ n := by
    intro n k xs
    unfold paginate
    rw [List.length_take]
    exact min_le_left _ _
  refine ⟨?_, ?_, by decide, by decide⟩
  · intro posts now page
    exact hpag _ _ _
  · intro cats posts slug now page
    unfold category_page_obj
    cases h : category_list_queryset cats posts slug now with
    | none => exact Nat.zero_le _
    | some l =>
      exact hpag POSTS_PER_PAGE page l

/-- C7 counterexample: the post-edit route is a protected route (the spec
lists it as author-only), yet an unauthenticated request for editing the
stored `postPast` is answered with a redirect to the post's detail page —
produced by `OnlyAuthorMixin.handle_no_permission` — and not with a
redirect to login, refuting the claim for this route. -/
theorem C7_counterexample :
    post_update [postPast] none 1 formD =
      (.redirectPostDetail 1, [postPast]) ∧
    (HttpResponse.redirectPostDetail 1 ≠ .redirectLogin) := by decide

/-- C7 (amended): an unauthenticated request to post create, comment create
or profile edit is redirected to login (`LoginRequiredMixin`); an
unauthenticated request to post edit/delete or comment edit/delete on an
existing resource is instead redirected to the post's detail page, because
`OnlyAuthorMixin` overrides `handle_no_permission` with that redirect for
authenticated and anonymous actors alike. -/
theorem C7_unauthenticated (users : List User) (posts : List Post)
    (comments : List Comment) (pid cid nid : Nat) (d : PostFormData)
    (f : UserFormData) (txt : String) (now : Timestamp) :
    ((post_create posts none d nid now).1 = .redirectLogin)
    ∧ ((comment_create posts comments none pid txt nid now).1 =
        .redirectLogin)
    ∧ ((profile_update users none f).1 = .redirectLogin)
    ∧ (∀ p, findPost posts pid = some p →
        (post_update posts none pid d).1 = .redirectPostDetail pid
        ∧ (post_delete posts comments none pid).1 = .redirectPostDetail pid)
    ∧ (∀ c, findComment comments pid cid = some c →
        (comment_update comments none pid cid txt).1 = .redirectPostDetail pid
        ∧ (comment_delete comments none pid cid).1 =
            .redirectPostDetail pid) := by
  refine ⟨rfl, rfl, rfl, ?_, ?_⟩
  · intro p hp
    constructor
    · unfold post_update
      simp [hp, isAuthor]
    · unfold post_delete
      simp [hp, isAuthor]
  · intro c hc
    constructor
    · unfold comment_update
      simp [hc, isCommentAuthor]
    · unfold comment_delete
      simp [hc, isCommentAuthor]

/-- C7 witness: concrete instantiation of `C7_unauthenticated` on the
one-post, one-comment store. -/
theorem C7_unauthenticated_witness :
    (post_create [postPast] none formD 2 ⟨0, 0⟩).1 = .redirectLogin ∧
    (post_update [postPast] none 1 formD).1 = .redirectPostDetail 1 ∧
    (comment_delete [cByAuthor] none 1 1).1 = .redirectPostDetail 1 :=
  ⟨(C7_unauthenticated [uAuthor] [postPast] [cByAuthor] 1 1 2 formD
      ⟨"n"⟩ "t" ⟨0, 0⟩).1,
   ((C7_unauthenticated [uAuthor] [postPast] [cByAuthor] 1 1 2 formD
      ⟨"n"⟩ "t" ⟨0, 0⟩).2.2.2.1 postPast (by decide)).1,
   ((C7_unauthenticated [uAuthor] [postPast] [cByAuthor] 1 1 2 formD
      ⟨"n"⟩ "t" ⟨0, 0⟩).2.2.2.2 cByAuthor (by decide)).2⟩

/-- Image of a post under the category-deletion map. -/
theorem mem_delete_category_row (posts : List Post) (cid : Nat) (p : Post)
    (hp : p ∈ posts) :
    (match p.category with
     | some c => if c.id == cid then { p with category := none } else p
     | none => p) ∈ delete_category_row posts cid :=
  List.mem_map_of_mem _ hp

/-- C8: a comment created by an authenticated viewer on an existing post is
stored with `author` equal to the viewer and `post_id` equal to the
addressed post, and the response redirects to that post's detail page; an
absent post id answers NotFound with nothing stored. -/
theorem C8_comment_creation (posts : List Post) (comments : List Comment)
    (u : User) (pid nid : Nat) (txt : String) (now : Timestamp) :
    (findPost posts pid = none →
      comment_create posts comments (some u) pid txt nid now =
        (.notFound, comments))
    ∧ (∀ p, findPost posts pid = some p →
        comment_create posts comments (some u) pid txt nid now =
          (.redirectPostDetail pid,
           comments ++ [{ id := nid, text := txt, post_id := pid,
                          author := u.id, created_at := now }])) := by
  constructor
  · intro h
    unfold comment_create
    rw [h]
  · intro p hp
    unfold comment_create
    rw [hp]

/-- C8 witness: user alice (id 7) commenting on post id 5 stores a comment
with `author = 7` and `post_id = 5` and is redirected to the detail page of
post 5, instantiating `C8_comment_creation`. -/
theorem C8_comment_creation_witness :
    comment_create [post5] [] (some ⟨7, "alice"⟩) 5 "hi" 1 ⟨3, 0⟩ =
      (.redirectPostDetail 5,
       [{ id := 1, text := "hi", post_id := 5, author := 7,
          created_at := ⟨3, 0⟩ }]) :=
  (C8_comment_creation [post5] [] ⟨7, "alice"⟩ 5 1 "hi" ⟨3, 0⟩).2 post5
    (by decide)

/-- C9: the deletion policies of the data model — deleting a post removes
every comment referencing it (`Comment.post` is `on_delete=CASCADE`), so no
orphan comment remains; deleting a category keeps every post, with its
identifying fields unchanged and its `category` reference nulled exactly
when it pointed at the deleted category (`Post.category` is
`on_delete=SET_NULL`). -/
theorem C9_deletion_policies (posts : List Post) (comments : List Comment)
    (pid cid : Nat) :
    (∀ c, c ∈ (delete_post_row posts comments pid).2 → c.post_id ≠ pid)
    ∧ (∀ p, p ∈ posts → ∃ q, q ∈ delete_category_row posts cid ∧
        q.id = p.id ∧ q.title = p.title ∧ q.text = p.text ∧
        q.author = p.author ∧ q.pub_date = p.pub_date ∧
        ((∃ c, p.category = some c ∧ c.id = cid) → q.category = none) ∧
        ((∀ c, p.category = some c → c.id ≠ cid) →
          q.category = p.category)) := by
  constructor
  · intro c hc hceq
    have hmem := List.mem_filter.mp hc
    have hf := hmem.2
    simp only [hceq, beq_self_eq_true, Bool.not_true] at hf
    exact Bool.false_ne_true hf
  · intro p hp
    have hq := mem_delete_category_row posts cid p hp
    by_cases hmatch : ∃ c, p.category = some c ∧ c.id = cid
    · obtain ⟨c, hc, hcid⟩ := hmatch
      rw [hc] at hq
      simp only [hcid, beq_self_eq_true, if_true] at hq
      exact ⟨{ p with category := none }, hq, rfl, rfl, rfl, rfl, rfl,
        fun _ => rfl, fun hall => absurd hcid (hall c hc)⟩
    · push_neg at hmatch
      have hfix : (match p.category with
          | some c => if c.id == cid then { p with category := none } else p
          | none => p) = p := by
        cases hcat : p.category with
        | none => rfl
        | some c =>
          have hne := hmatch c hcat
          simp [hne]
      rw [hfix] at hq
      exact ⟨p, hq, rfl, rfl, rfl, rfl, rfl,
        fun hex => absurd hex (by push_neg; exact hmatch),
        fun _ => rfl⟩

/-- C9 witness: deleting post 1 from the two-comment store leaves only the
comment on post 2, which indeed does not reference post 1; deleting
category 1 turns `postPast`, whose category was category 1, into the same
post with a NULL category — instantiating `C9_deletion_policies`. -/
theorem C9_deletion_policies_witness :
    cKeep.post_id ≠ 1 ∧
    (∃ q, q ∈ delete_category_row [postPast] 1 ∧
      q.id = postPast.id ∧ q.title = postPast.title ∧
      q.text = postPast.text ∧ q.author = postPast.author ∧
      q.pub_date = postPast.pub_date ∧
      ((∃ c, postPast.category = some c ∧ c.id = 1) → q.category = none) ∧
      ((∀ c, postPast.category = some c → c.id ≠ 1) →
        q.category = postPast.category)) :=
  ⟨(C9_deletion_policies [postPast] [cGone, cKeep] 1 1).1 cKeep (by decide),
   (C9_deletion_policies [postPast] [cGone, cKeep] 1 1).2 postPast
     (by decide)⟩

/-- C10 counterexample: `postDraft` has a NULL category, and a non-author
request for its detail page answers NotFound rather than raising an error,
because `not post.is_published` short-circuits the Python `or` before
`post.category.is_published` is dereferenced. The claim, quantified over
every NULL-category post, is therefore false for unpublished ones. -/
theorem C10_counterexample :
    post_detail [postDraft] (some vNonAuthor) 1 ⟨200, 0⟩ = .notFound := by
  decide

/-- C10 (amended): for every stored post whose category is NULL and whose
`is_published` flag is true, a detail request by a non-author does not
answer NotFound but fails with an unhandled error — the visibility check
dereferences `post.category.is_published` without a NULL guard. -/
theorem C10_null_category_error (posts : List Post) (viewer : Option User)
    (pid : Nat) (now : Timestamp) :
    ∀ p, findPost posts pid = some p → p.category = none →
      p.is_published = true → isAuthor viewer p = false →
      post_detail posts viewer pid now = .serverError ∧
        (HttpResponse.serverError ≠ .notFound) := by
  intro p hp hcat hpub hauth
  unfold post_detail
  simp [hp, hcat, hpub, hauth]

/-- C10 witness: a non-author requesting the published, category-less
`postPubNoCat` hits the unhandled error, instantiating
`C10_null_category_error`. -/
theorem C10_null_category_error_witness :
    post_detail [postPubNoCat] (some vNonAuthor) 1 ⟨1, 0⟩ = .serverError ∧
      (HttpResponse.serverError ≠ .notFound) :=
  C10_null_category_error [postPubNoCat] (some vNonAuthor) 1 ⟨1, 0⟩
    postPubNoCat (by decide) (by decide) (by decide) (by decide)

end Blogicum
